import Mathlib

/-!
Verification development for the Lance FFI bridge core
(src/third_party/lance-ffi/src/lib.rs).

Shallow embedding: raw C pointers are modelled abstractly. A possibly-null
pointer to a byte buffer becomes `Option (List Nat)` (the bytes it points
to), a possibly-null descriptor pointer becomes `Option CArr`, and machine
integer casts (`as usize`) are made explicit with modular reduction.
Fallible Rust functions returning `Result<_, String>` become
`Except String _`.
-/

set_option autoImplicit false

namespace LanceFFI

/-- Rust cast `x as usize` for a 64-bit signed integer `x`, on a 64-bit
target: two-complement reinterpretation, i.e. reduction modulo 2 ^ 64. -/
def usizeOfI64 (x : Int) : Nat := (x % (2 ^ 64)).toNat

/-- Read the little-endian signed 32-bit integer stored at element index `i`
of a byte buffer (i.e. at byte offset `4 * i`), as Rust does when it
reinterprets an offsets buffer as a `*const i32` slice. Bytes beyond the end
of the modelled buffer read as 0 (the concrete program would be in
undefined-behavior territory there). -/
def i32At (bytes : List Nat) (i : Nat) : Int :=
  let u := bytes.getD (4 * i) 0 % 256 + 256 * (bytes.getD (4 * i + 1) 0 % 256)
    + 65536 * (bytes.getD (4 * i + 2) 0 % 256)
    + 16777216 * (bytes.getD (4 * i + 3) 0 % 256)
  if u < 2147483648 then (u : Int) else (u : Int) - 4294967296

/-- The Arrow data types this bridge can meet. The first fifteen
constructors are the ones the Rust code matches by name
(`EncodingStrategy::for_column` and the import dispatch); the remaining
constructors stand for the other members of the Arrow `DataType` enum,
which all fall into the catch-all match arms. -/
inductive DataType where
  | int64
  | int32
  | int16
  | int8
  | uint64
  | uint32
  | uint16
  | uint8
  | float64
  | float32
  | decimal128 (precision : Nat) (scale : Nat)
  | date32
  | date64
  | utf8
  | largeUtf8
  | timestamp
  | time32
  | time64
  | duration
  | boolean
  | binary
  | float16
deriving DecidableEq, Repr

/-- Rendering of a data type as a string (stands for both the Rust
`Display` and `Debug` renderings; no claim depends on the exact text). -/
def dtypeStr : DataType → String
  | DataType.int64 => "Int64"
  | DataType.int32 => "Int32"
  | DataType.int16 => "Int16"
  | DataType.int8 => "Int8"
  | DataType.uint64 => "UInt64"
  | DataType.uint32 => "UInt32"
  | DataType.uint16 => "UInt16"
  | DataType.uint8 => "UInt8"
  | DataType.float64 => "Float64"
  | DataType.float32 => "Float32"
  | DataType.decimal128 _ _ => "Decimal128"
  | DataType.date32 => "Date32"
  | DataType.date64 => "Date64"
  | DataType.utf8 => "Utf8"
  | DataType.largeUtf8 => "LargeUtf8"
  | DataType.timestamp => "Timestamp"
  | DataType.time32 => "Time32"
  | DataType.time64 => "Time64"
  | DataType.duration => "Duration"
  | DataType.boolean => "Boolean"
  | DataType.binary => "Binary"
  | DataType.float16 => "Float16"

/-- Arrow schema field: name plus declared data type. -/
structure Field where
  name : String
  data_type : DataType
deriving DecidableEq, Repr

/-- Arrow schema: ordered fields plus string-to-string metadata
(the Rust `HashMap<String, String>` is modelled as an association list;
`insertKV` below gives it the map insert semantics). -/
structure Schema where
  fields : List Field
  metadata : List (String × String)
deriving DecidableEq, Repr

/-- `HashMap::insert` semantics over the association-list model: replace
the value under an existing key, otherwise add the binding. -/
def insertKV (m : List (String × String)) (k v : String) : List (String × String) :=
  if m.any (fun p => p.1 = k) then
    m.map (fun p => if p.1 = k then (k, v) else p)
  else
    m ++ [(k, v)]

/-- The C Data Interface `ArrowArray` struct (`CDataArrowArray` in the Rust
code): declared length, declared null count, declared buffer count, the
buffers array (outer `Option` models a null `buffers` pointer, inner
`Option` a null individual buffer pointer, and a non-null buffer pointer
carries the bytes it addresses), declared child count, and the children
array (outer `Option` models a null `children` pointer, inner `Option` a
null individual child pointer). -/
inductive CArr : Type where
  | mk (length : Int) (null_count : Int)
       (n_buffers : Int) (buffers : Option (List (Option (List Nat))))
       (n_children : Int) (children : Option (List (Option CArr)))

def CArr.lengthI : CArr → Int
  | CArr.mk l _ _ _ _ _ => l

def CArr.nullCountI : CArr → Int
  | CArr.mk _ nc _ _ _ _ => nc

def CArr.nBuffers : CArr → Int
  | CArr.mk _ _ nb _ _ _ => nb

def CArr.buffersA : CArr → Option (List (Option (List Nat)))
  | CArr.mk _ _ _ b _ _ => b

def CArr.nChildren : CArr → Int
  | CArr.mk _ _ _ _ nc _ => nc

def CArr.childrenA : CArr → Option (List (Option CArr))
  | CArr.mk _ _ _ _ _ c => c

/-- Safe wrapper around a possibly-null `CDataArrowArray` pointer
(`SafeArrowArray` in the Rust code). -/
structure SafeArrowArray where
  ffi : Option CArr

/-- `SafeArrowArray::buffer_ptr`: buffer pointer at `index`, or `none` when
the descriptor pointer is null, the index is at or beyond the declared
buffer count, the buffers array pointer is null, or the stored buffer
pointer is itself null. Reading a slot inside the declared count but
beyond the modelled buffers list (undefined behavior in the concrete
program) is modelled as `none`. -/
def SafeArrowArray.buffer_ptr (sa : SafeArrowArray) (index : Nat) : Option (List Nat) :=
  match sa.ffi with
  | none => none
  | some a =>
    if index ≥ usizeOfI64 a.nBuffers then none
    else
      match a.buffersA with
      | none => none
      | some bufs => (bufs.get? index).bind id

/-- `SafeArrowArray::child`: child descriptor pointer at `index`. The outer
`Option` is the `Option` the Rust function returns (absent on a null
descriptor, out-of-range index, or null children array); the inner
`Option CArr` is the stored pointer, which may itself be null. -/
def SafeArrowArray.child (sa : SafeArrowArray) (index : Nat) : Option (Option CArr) :=
  match sa.ffi with
  | none => none
  | some a =>
    if index ≥ usizeOfI64 a.nChildren then none
    else
      match a.childrenA with
      | none => none
      | some cs => cs.get? index

/-- `SafeArrowArray::length`: declared length, or 0 on a null descriptor. -/
def SafeArrowArray.length (sa : SafeArrowArray) : Int :=
  match sa.ffi with
  | none => 0
  | some a => a.lengthI

/-- `SafeArrowArray::null_count`: declared null count, or 0 on a null
descriptor. -/
def SafeArrowArray.null_count (sa : SafeArrowArray) : Int :=
  match sa.ffi with
  | none => 0
  | some a => a.nullCountI

/-- Owned Arrow `ArrayData` as this bridge builds it: data type, length,
value buffers, optional validity bitmap, and null count. The Rust code
uses `ArrayData::builder`, whose validity bitmap field defaults to absent
and is never set by this bridge. -/
structure ArrayData where
  dtype : DataType
  len : Nat
  buffers : List (List Nat)
  null_bit_buffer : Option (List Nat)
  null_count : Nat
deriving DecidableEq, Repr

/-- `import_primitive_array`: decode a fixed-width primitive column
(Int64, Float64, Int32) from a descriptor. Rejects length 0, reads and
discards the optional null bitmap at buffer slot 0, requires the values
buffer at slot 1, and carries the declared null count over verbatim. -/
def import_primitive_array (safe_array : SafeArrowArray) (field : Field) :
    Except String ArrayData :=
  let length := usizeOfI64 safe_array.length
  if length = 0 then
    Except.error "Cannot import array with 0 length"
  else
    let _null_bitmap : Option (List Nat) :=
      (safe_array.buffer_ptr 0).map (fun bytes => bytes.take ((length + 7) / 8))
    match safe_array.buffer_ptr 1 with
    | none => Except.error "Missing data buffer for primitive array"
    | some data_ptr =>
      match field.data_type with
      | DataType.int64 =>
          Except.ok { dtype := DataType.int64, len := length,
                      buffers := [data_ptr.take (length * 8)],
                      null_bit_buffer := none,
                      null_count := usizeOfI64 safe_array.null_count }
      | DataType.float64 =>
          Except.ok { dtype := DataType.float64, len := length,
                      buffers := [data_ptr.take (length * 8)],
                      null_bit_buffer := none,
                      null_count := usizeOfI64 safe_array.null_count }
      | DataType.int32 =>
          Except.ok { dtype := DataType.int32, len := length,
                      buffers := [data_ptr.take (length * 4)],
                      null_bit_buffer := none,
                      null_count := usizeOfI64 safe_array.null_count }
      | other =>
          Except.error ("Unsupported primitive type in FFI import: " ++ dtypeStr other)

/-- `import_string_array`: decode a Utf8 column. Rejects length 0, reads
and discards the optional null bitmap at slot 0, requires the offsets
buffer at slot 1 and the data buffer at slot 2, sizes the data slice by
the last 32-bit offset entry, and carries the declared null count over
verbatim. -/
def import_string_array (safe_array : SafeArrowArray) (_field : Field) :
    Except String ArrayData :=
  let length := usizeOfI64 safe_array.length
  if length = 0 then
    Except.error "Cannot import array with 0 length"
  else
    let _null_bitmap : Option (List Nat) :=
      (safe_array.buffer_ptr 0).map (fun bytes => bytes.take ((length + 7) / 8))
    match safe_array.buffer_ptr 1 with
    | none => Except.error "Missing offset buffer for string array"
    | some offset_ptr =>
      let offset_buffer := offset_ptr.take ((length + 1) * 4)
      match safe_array.buffer_ptr 2 with
      | none => Except.error "Missing data buffer for string array"
      | some data_ptr =>
        let data_byte_count := usizeOfI64 (i32At offset_ptr length)
        Except.ok { dtype := DataType.utf8, len := length,
                    buffers := [offset_buffer, data_ptr.take data_byte_count],
                    null_bit_buffer := none,
                    null_count := usizeOfI64 safe_array.null_count }

/-- Arrow `RecordBatch`: schema, decoded columns, and the row count
(which `RecordBatch::try_new` sets to the length of the first column). -/
structure RecordBatch where
  schema : Schema
  columns : List ArrayData
  num_rows : Nat
deriving DecidableEq, Repr

/-- Arrow `RecordBatch::try_new` (external arrow-rs collaborator, modelled
from its documented semantics): the column count must match the field
count, at least one column is required, column types must match the schema
and all columns must share one length. -/
def RecordBatch.try_new (schema : Schema) (columns : List ArrayData) :
    Except String RecordBatch :=
  if columns.length ≠ schema.fields.length then
    Except.error "Failed to create RecordBatch: number of columns must match number of fields"
  else
    match columns with
    | [] => Except.error "Failed to create RecordBatch: a record batch requires at least one column"
    | c :: rest =>
      if (schema.fields.zip columns).all (fun p => p.2.dtype = p.1.data_type) then
        if rest.all (fun x => x.len = c.len) then
          Except.ok { schema := schema, columns := columns, num_rows := c.len }
        else
          Except.error "Failed to create RecordBatch: all columns must have the same length"
      else
        Except.error "Failed to create RecordBatch: column types must match schema types"

/-- The per-field loop of `LanceWriterHandle::import_ffi_batch`: for field
`i`, fetch child `i` of the root descriptor (missing child fails the whole
batch naming the field), then dispatch on the declared type to the
primitive or string decoder; any other type is unsupported. -/
def importFields (sa : SafeArrowArray) : List Field → Nat → Except String (List ArrayData)
  | [], _ => Except.ok []
  | f :: rest, i =>
    match sa.child i with
    | none => Except.error ("Missing child array for field " ++ toString i ++ ": " ++ f.name)
    | some childPtr =>
      let childSafe : SafeArrowArray := { ffi := childPtr }
      let one : Except String ArrayData :=
        match f.data_type with
        | DataType.int64 => import_primitive_array childSafe f
        | DataType.float64 => import_primitive_array childSafe f
        | DataType.int32 => import_primitive_array childSafe f
        | DataType.utf8 => import_string_array childSafe f
        | dt => Except.error ("Unsupported type for field " ++ f.name ++ ": " ++ dtypeStr dt)
      match one with
      | Except.error e => Except.error e
      | Except.ok arr =>
        match importFields sa rest (i + 1) with
        | Except.error e => Except.error e
        | Except.ok arrs => Except.ok (arr :: arrs)

/-- `LanceWriterHandle::import_ffi_batch`. The conversion of the raw
`FFI_ArrowSchema` pointer into a `Schema` is performed by the external
arrow-rs library; its outcome is the `schemaRes` argument (error text is
wrapped as in the Rust code). The root array descriptor may be null
(`none`). -/
def import_ffi_batch (arrow_array : Option CArr) (schemaRes : Except String Schema) :
    Except String RecordBatch :=
  match schemaRes with
  | Except.error e => Except.error ("Failed to convert FFI_ArrowSchema to Schema: " ++ e)
  | Except.ok schema =>
    match importFields { ffi := arrow_array } schema.fields 0 with
    | Except.error e => Except.error e
    | Except.ok arrays => RecordBatch.try_new schema arrays

/-- `LanceWriterHandle`: target URI, optional captured schema, accumulated
batches, counters, and the closed flag. The Tokio runtime field carries no
observable state and is omitted from the model. -/
structure LanceWriterHandle where
  uri : String
  schema : Option Schema
  batches : List RecordBatch
  batch_count : Nat
  row_count : Nat
  closed : Bool
deriving DecidableEq, Repr

/-- `LanceWriterHandle::new`: fresh Open handle with zero counters. -/
def LanceWriterHandle.new (uri : String) : LanceWriterHandle :=
  { uri := uri, schema := none, batches := [], batch_count := 0,
    row_count := 0, closed := false }

/-- `lance_writer_write_batch`. Pointer arguments are modelled as
`Option`s: `none` is a null pointer. The schema pointer, when non-null,
carries the outcome of the external schema conversion (see
`import_ffi_batch`). Returns the writer state after the call and the C
status code. Check order follows the Rust code: null handle (1), null
descriptor pointers (3), closed flag (2), import failure (4), success (0)
with schema capture, batch append and counter updates. -/
def lance_writer_write_batch (writer : Option LanceWriterHandle)
    (arrow_array : Option CArr) (arrow_schema : Option (Except String Schema)) :
    Option LanceWriterHandle × Int :=
  match writer with
  | none => (none, 1)
  | some w =>
    if arrow_array.isNone || arrow_schema.isNone then (some w, 3)
    else if w.closed then (some w, 2)
    else
      match import_ffi_batch arrow_array (arrow_schema.getD (Except.error "")) with
      | Except.error _ => (some w, 4)
      | Except.ok record_batch =>
        let w1 := if w.schema.isNone then { w with schema := some record_batch.schema } else w
        (some { w1 with
                  row_count := w1.row_count + record_batch.num_rows,
                  batches := w1.batches ++ [record_batch],
                  batch_count := w1.batch_count + 1 }, 0)

/-- `EncodingStrategy`: per-column encoding plan. -/
structure EncodingStrategy where
  column_name : String
  data_type : String
  strategy : String
  is_fast_path : Bool
deriving DecidableEq, Repr

/-- `EncodingStrategy::for_column`: integer, float, decimal and date types
map to fixed-width with the fast path; Utf8 and LargeUtf8 map to
dictionary without the fast path; every other type falls to the
variable-width default without the fast path. -/
def EncodingStrategy.for_column (field : Field) : EncodingStrategy :=
  let sp : String × Bool :=
    match field.data_type with
    | DataType.int64 => ("fixed-width", true)
    | DataType.int32 => ("fixed-width", true)
    | DataType.int16 => ("fixed-width", true)
    | DataType.int8 => ("fixed-width", true)
    | DataType.uint64 => ("fixed-width", true)
    | DataType.uint32 => ("fixed-width", true)
    | DataType.uint16 => ("fixed-width", true)
    | DataType.uint8 => ("fixed-width", true)
    | DataType.float64 => ("fixed-width", true)
    | DataType.float32 => ("fixed-width", true)
    | DataType.decimal128 _ _ => ("fixed-width", true)
    | DataType.date32 => ("fixed-width", true)
    | DataType.date64 => ("fixed-width", true)
    | DataType.utf8 => ("dictionary", false)
    | DataType.largeUtf8 => ("dictionary", false)
    | _ => ("variable-width", false)
  { column_name := field.name,
    data_type := dtypeStr field.data_type,
    strategy := sp.1,
    is_fast_path := sp.2 }

/-- `compute_encoding_strategies`: one strategy per schema field, in
order. -/
def compute_encoding_strategies (schema : Schema) : List EncodingStrategy :=
  schema.fields.map EncodingStrategy.for_column

/-- `create_schema_with_hints`: starting from the schema metadata, insert
a `lance-encoding:<name>` hint for each fast-path column; non-fast-path
columns get no hint. Fields are unchanged. -/
def create_schema_with_hints (schema : Schema) (strategies : List EncodingStrategy) :
    Schema :=
  let metadata := (schema.fields.zip strategies).foldl
    (fun md fs =>
      if fs.2.is_fast_path then
        insertKV md ("lance-encoding:" ++ fs.1.name) fs.2.strategy
      else md)
    schema.metadata
  { fields := schema.fields, metadata := metadata }

/-- The arguments `lance_writer_close` hands to the external dataset
writer `lance::Dataset::write`: the drained batches in order, the hinted
schema, and `max_rows_per_group`. -/
structure ExternalWriteCall where
  batches : List RecordBatch
  schema : Schema
  max_rows_per_group : Nat
deriving DecidableEq, Repr

/-- `lance_writer_close`. The external dataset writer is the `datasetWrite`
argument. Returns the writer state after the call, the C status code, and
the external invocation performed, if any (`none` when the external writer
was never invoked). With accumulated batches: they are drained
(`mem::take`), the strategies and hinted schema are computed from the
first batch schema, and the external writer is invoked with
`max_rows_per_group = 4096`; on its failure the function returns 5 before
the closed flag is ever set, on success the flag is set and 0 returned.
With no batches: the flag is set and 0 returned with no external call. -/
def lance_writer_close (writer : Option LanceWriterHandle)
    (datasetWrite : ExternalWriteCall → Except String Unit) :
    Option LanceWriterHandle × Int × Option ExternalWriteCall :=
  match writer with
  | none => (none, 1, none)
  | some w =>
    if w.closed then (some w, 2, none)
    else if w.batches ≠ [] then
      let batches := w.batches
      let w1 := { w with batches := [] }
      let original_schema := (batches.headD { schema := { fields := [], metadata := [] }, columns := [], num_rows := 0 }).schema
      let strategies := compute_encoding_strategies original_schema
      let optimized_schema := create_schema_with_hints original_schema strategies
      let call : ExternalWriteCall :=
        { batches := batches, schema := optimized_schema, max_rows_per_group := 4096 }
      match datasetWrite call with
      | Except.error _ => (some w1, 5, some call)
      | Except.ok _ => (some { w1 with closed := true }, 0, some call)
    else
      (some { w with closed := true }, 0, none)

/-! Concrete sample inputs, used by the witnesses below. They model the
spec scenario: one Int64 column named a, a batch of values 1, 2, 3 and a
batch of values 4, 5, plus a small Utf8 column. -/

/-- Sample schema: a single Int64 field named a. -/
def sampleSchema : Schema := { fields := [{ name := "a", data_type := DataType.int64 }], metadata := [] }

/-- Little-endian bytes of the three Int64 values 1, 2, 3. -/
def sampleBytes3 : List Nat :=
  [1, 0, 0, 0, 0, 0, 0, 0,
   2, 0, 0, 0, 0, 0, 0, 0,
   3, 0, 0, 0, 0, 0, 0, 0]

/-- Little-endian bytes of the two Int64 values 4, 5. -/
def sampleBytes2 : List Nat :=
  [4, 0, 0, 0, 0, 0, 0, 0,
   5, 0, 0, 0, 0, 0, 0, 0]

/-- Child descriptor: Int64 column of 3 values, null validity-bitmap
pointer, values buffer present, declared null count 0. -/
def sampleChild3 : CArr := CArr.mk 3 0 2 (some [none, some sampleBytes3]) 0 none

/-- Root descriptor owning `sampleChild3` as its only child. -/
def sampleRoot3 : CArr := CArr.mk 3 0 0 none 1 (some [some sampleChild3])

/-- Child descriptor: Int64 column of 2 values. -/
def sampleChild2 : CArr := CArr.mk 2 0 2 (some [none, some sampleBytes2]) 0 none

/-- Root descriptor owning `sampleChild2` as its only child. -/
def sampleRoot2 : CArr := CArr.mk 2 0 0 none 1 (some [some sampleChild2])

/-- The array data decoded from `sampleChild3`. -/
def sampleAd3 : ArrayData :=
  { dtype := DataType.int64, len := 3, buffers := [sampleBytes3],
    null_bit_buffer := none, null_count := 0 }

/-- The array data decoded from `sampleChild2`. -/
def sampleAd2 : ArrayData :=
  { dtype := DataType.int64, len := 2, buffers := [sampleBytes2],
    null_bit_buffer := none, null_count := 0 }

/-- The record batch decoded from `sampleRoot3` with `sampleSchema`. -/
def sampleRb3 : RecordBatch := { schema := sampleSchema, columns := [sampleAd3], num_rows := 3 }

/-- The record batch decoded from `sampleRoot2` with `sampleSchema`. -/
def sampleRb2 : RecordBatch := { schema := sampleSchema, columns := [sampleAd2], num_rows := 2 }

/-- Utf8 column descriptor of 2 strings (offsets 0, 2, 3; data bytes of
the text abc), declared null count 0. -/
def sampleChildS : CArr :=
  CArr.mk 2 0 3
    (some [none, some [0, 0, 0, 0, 2, 0, 0, 0, 3, 0, 0, 0], some [97, 98, 99]]) 0 none

/-- A fresh Open writer for the sample URI. -/
def sampleOpenWriter : LanceWriterHandle := LanceWriterHandle.new "/tmp/t1"

/-- An Open writer holding one accumulated 3-row batch. -/
def sampleWriterWithBatch : LanceWriterHandle :=
  { uri := "/tmp/t1", schema := some sampleSchema, batches := [sampleRb3],
    batch_count := 1, row_count := 3, closed := false }

/-- A Closed writer. -/
def sampleClosedWriter : LanceWriterHandle :=
  { LanceWriterHandle.new "/tmp/t1" with closed := true }

/-- External dataset writer that always fails. -/
def extFail : ExternalWriteCall → Except String Unit :=
  fun _ => Except.error "write failed"

/-- External dataset writer that always succeeds. -/
def extOk : ExternalWriteCall → Except String Unit :=
  fun _ => Except.ok ()

/-- The array data decoded from `sampleChildS`. -/
def sampleAdS : ArrayData :=
  { dtype := DataType.utf8, len := 2,
    buffers := [[0, 0, 0, 0, 2, 0, 0, 0, 3, 0, 0, 0], [97, 98, 99]],
    null_bit_buffer := none, null_count := 0 }

/-- Writer state after the first scenario write (3 rows). -/
def scenarioAfterFirst : Option LanceWriterHandle :=
  (lance_writer_write_batch (some sampleOpenWriter) (some sampleRoot3)
    (some (Except.ok sampleSchema))).1

/-- Writer state after the second scenario write (2 more rows). -/
def scenarioAfterSecond : Option LanceWriterHandle :=
  (lance_writer_write_batch scenarioAfterFirst (some sampleRoot2)
    (some (Except.ok sampleSchema))).1

/-- Classification predicate on declared types: the fixed-width numeric,
decimal and date types, exactly the types the planner sends to the
fixed-width fast path. -/
def isFastFixedType : DataType → Bool
  | DataType.int64 => true
  | DataType.int32 => true
  | DataType.int16 => true
  | DataType.int8 => true
  | DataType.uint64 => true
  | DataType.uint32 => true
  | DataType.uint16 => true
  | DataType.uint8 => true
  | DataType.float64 => true
  | DataType.float32 => true
  | DataType.decimal128 _ _ => true
  | DataType.date32 => true
  | DataType.date64 => true
  | _ => false

/-- Classification predicate on declared types: the text types. -/
def isTextType : DataType → Bool
  | DataType.utf8 => true
  | DataType.largeUtf8 => true
  | _ => false

/-! Theorems. -/

/-- Membership in an `insertKV` result comes from the original map or is
exactly the inserted binding. -/
theorem mem_insertKV {md : List (String × String)} {k v : String}
    {kv : String × String} (h : kv ∈ insertKV md k v) :
    kv ∈ md ∨ kv = (k, v) := by
  unfold insertKV at h
  split at h
  · rcases List.mem_map.mp h with ⟨p, hp, he⟩
    by_cases hk : p.1 = k
    · right
      rw [if_pos hk] at he
      exact he.symm
    · left
      rw [if_neg hk] at he
      rw [← he]
      exact hp
  · rcases List.mem_append.mp h with h1 | h1
    · exact Or.inl h1
    · right
      simpa using h1

/-- Every binding in the hint-inserting fold over field and strategy pairs
comes from the starting metadata or from a fast-path pair. -/
theorem mem_hints_foldl (ps : List (Field × EncodingStrategy))
    (md : List (String × String)) (kv : String × String)
    (h : kv ∈ ps.foldl
      (fun md2 fs =>
        if fs.2.is_fast_path then
          insertKV md2 ("lance-encoding:" ++ fs.1.name) fs.2.strategy
        else md2) md) :
    kv ∈ md ∨ ∃ p ∈ ps, p.2.is_fast_path = true ∧
      kv = ("lance-encoding:" ++ p.1.name, p.2.strategy) := by
  induction ps generalizing md with
  | nil => exact Or.inl h
  | cons p rest ih =>
    simp only [List.foldl_cons] at h
    rcases ih _ h with h1 | h1
    · cases hf : p.2.is_fast_path with
      | true =>
        rw [hf, if_pos rfl] at h1
        rcases mem_insertKV h1 with h2 | h2
        · exact Or.inl h2
        · exact Or.inr ⟨p, List.mem_cons_self p rest, hf, h2⟩
      | false =>
        rw [hf, if_neg Bool.false_ne_true] at h1
        exact Or.inl h1
    · rcases h1 with ⟨q, hq, hfast, he⟩
      exact Or.inr ⟨q, List.mem_cons_of_mem p hq, hfast, he⟩

/-- Claim C5: for every supported type, decoding a descriptor whose
declared length is 0 always fails with the zero-length ImportError; no
zero-length typed array is ever produced by either decoder. -/
theorem zero_length_always_rejected (sa : SafeArrowArray) (f g : Field)
    (h : sa.length = 0) :
    import_primitive_array sa f = Except.error "Cannot import array with 0 length" ∧
    import_string_array sa g = Except.error "Cannot import array with 0 length" := by
  have hz : usizeOfI64 sa.length = 0 := by rw [h]; rfl
  constructor
  · unfold import_primitive_array
    simp [hz]
  · unfold import_string_array
    simp [hz]

/-- Witness for C5: a null descriptor reports length 0 and both decoders
reject it. -/
theorem zero_length_always_rejected_witness :
    import_primitive_array { ffi := none } { name := "a", data_type := DataType.int64 } =
      Except.error "Cannot import array with 0 length" ∧
    import_string_array { ffi := none } { name := "s", data_type := DataType.utf8 } =
      Except.error "Cannot import array with 0 length" :=
  zero_length_always_rejected { ffi := none }
    { name := "a", data_type := DataType.int64 }
    { name := "s", data_type := DataType.utf8 } rfl

/-- Claim C7: close on an Open handle with zero accumulated batches
returns success (0), never invokes the external dataset writer, and
transitions the handle to Closed. -/
theorem close_with_zero_batches (w : LanceWriterHandle)
    (dw : ExternalWriteCall → Except String Unit)
    (hopen : w.closed = false) (hb : w.batches = []) :
    lance_writer_close (some w) dw = (some { w with closed := true }, 0, none) := by
  unfold lance_writer_close
  simp [hopen, hb]

/-- Witness for C7: closing a fresh writer. -/
theorem close_with_zero_batches_witness :
    lance_writer_close (some sampleOpenWriter) extOk =
      (some { sampleOpenWriter with closed := true }, 0, none) :=
  close_with_zero_batches sampleOpenWriter extOk rfl rfl

/-- Claim C8: the Import Layer accessors are total; a null descriptor or
an out-of-range index always yields absent (for the pointer accessors) or
zero (for length and null count). -/
theorem import_accessors_total :
    (∀ i, SafeArrowArray.buffer_ptr { ffi := none } i = none) ∧
    (∀ i, SafeArrowArray.child { ffi := none } i = none) ∧
    SafeArrowArray.length { ffi := none } = 0 ∧
    SafeArrowArray.null_count { ffi := none } = 0 ∧
    (∀ a i, usizeOfI64 a.nBuffers ≤ i →
      SafeArrowArray.buffer_ptr { ffi := some a } i = none) ∧
    (∀ a i, usizeOfI64 a.nChildren ≤ i →
      SafeArrowArray.child { ffi := some a } i = none) := by
  refine ⟨fun i => rfl, fun i => rfl, rfl, rfl, ?_, ?_⟩
  · intro a i h
    have he : SafeArrowArray.buffer_ptr { ffi := some a } i =
        if i ≥ usizeOfI64 a.nBuffers then none
        else
          match a.buffersA with
          | none => none
          | some bufs => (bufs.get? i).bind id := rfl
    rw [he, if_pos h]
  · intro a i h
    have he : SafeArrowArray.child { ffi := some a } i =
        if i ≥ usizeOfI64 a.nChildren then none
        else
          match a.childrenA with
          | none => none
          | some cs => cs.get? i := rfl
    rw [he, if_pos h]

/-- Witness for C8: out-of-range accesses on a concrete descriptor with
no buffers and no children. -/
theorem import_accessors_total_witness :
    SafeArrowArray.buffer_ptr { ffi := some (CArr.mk 0 0 0 none 0 none) } 5 = none ∧
    SafeArrowArray.child { ffi := some (CArr.mk 0 0 0 none 0 none) } 7 = none :=
  ⟨import_accessors_total.2.2.2.2.1 (CArr.mk 0 0 0 none 0 none) 5 (by decide),
   import_accessors_total.2.2.2.2.2 (CArr.mk 0 0 0 none 0 none) 7 (by decide)⟩

/-- Claim C9: for every supported fixed-width type and every descriptor
with positive length and a present values buffer, the primitive decoder
succeeds with a typed array of that length whose null count is the
declared null count carried over verbatim. -/
theorem primitive_decoder_length_and_null_count (sa : SafeArrowArray)
    (f : Field) (buf : List Nat)
    (hT : f.data_type = DataType.int64 ∨ f.data_type = DataType.float64 ∨
      f.data_type = DataType.int32)
    (hn : 0 < usizeOfI64 sa.length)
    (hb : sa.buffer_ptr 1 = some buf) :
    ∃ ad, import_primitive_array sa f = Except.ok ad ∧
      ad.len = usizeOfI64 sa.length ∧
      ad.null_count = usizeOfI64 sa.null_count := by
  have hz : ¬ usizeOfI64 sa.length = 0 := by omega
  unfold import_primitive_array
  rw [if_neg hz, hb]
  rcases hT with h | h | h <;> rw [h] <;> exact ⟨_, rfl, rfl, rfl⟩

/-- Witness for C9: the sample Int64 descriptor with no null bitmap and
declared null count 0 decodes to a 3-element array with null count 0. -/
theorem primitive_decoder_length_and_null_count_witness :
    (∃ ad, import_primitive_array { ffi := some sampleChild3 }
        { name := "a", data_type := DataType.int64 } = Except.ok ad ∧
      ad.len = usizeOfI64 (SafeArrowArray.length { ffi := some sampleChild3 }) ∧
      ad.null_count = usizeOfI64 (SafeArrowArray.null_count { ffi := some sampleChild3 })) ∧
    usizeOfI64 (SafeArrowArray.null_count { ffi := some sampleChild3 }) = 0 :=
  ⟨primitive_decoder_length_and_null_count { ffi := some sampleChild3 }
      { name := "a", data_type := DataType.int64 } sampleBytes3
      (Or.inl rfl) (by decide) rfl,
   by decide⟩

/-- Claim C10: in both decoders the optional null bitmap at slot 0 is
read but discarded: the produced array data never carries a validity
bitmap, and its buffer list is exactly the values buffer (primitive) or
the offsets and data buffers (text). -/
theorem null_bitmap_discarded :
    (∀ sa f ad, import_primitive_array sa f = Except.ok ad →
      ad.null_bit_buffer = none ∧ ∃ v, ad.buffers = [v]) ∧
    (∀ sa f ad, import_string_array sa f = Except.ok ad →
      ad.null_bit_buffer = none ∧ ∃ off dat, ad.buffers = [off, dat]) := by
  constructor
  · intro sa f ad h
    simp only [import_primitive_array] at h
    split at h
    · exact absurd h (by simp)
    · split at h
      · exact absurd h (by simp)
      · split at h
        · injection h with h2
          rw [← h2]
          exact ⟨rfl, _, rfl⟩
        · injection h with h2
          rw [← h2]
          exact ⟨rfl, _, rfl⟩
        · injection h with h2
          rw [← h2]
          exact ⟨rfl, _, rfl⟩
        · exact absurd h (by simp)
  · intro sa f ad h
    simp only [import_string_array] at h
    split at h
    · exact absurd h (by simp)
    · split at h
      · exact absurd h (by simp)
      · split at h
        · exact absurd h (by simp)
        · injection h with h2
          rw [← h2]
          exact ⟨rfl, _, _, rfl⟩

/-- Witness for C10: the sample primitive and string imports. -/
theorem null_bitmap_discarded_witness :
    (sampleAd3.null_bit_buffer = none ∧ ∃ v, sampleAd3.buffers = [v]) ∧
    (sampleAdS.null_bit_buffer = none ∧ ∃ off dat, sampleAdS.buffers = [off, dat]) :=
  ⟨null_bitmap_discarded.1 { ffi := some sampleChild3 }
      { name := "a", data_type := DataType.int64 } sampleAd3 rfl,
   null_bitmap_discarded.2 { ffi := some sampleChildS }
      { name := "s", data_type := DataType.utf8 } sampleAdS rfl⟩

/-- Claim C3: a failing write_batch call on an Open handle (null
descriptor pointers give status 3, any import failure gives status 4)
returns the writer state completely unchanged. -/
theorem write_batch_failure_leaves_state_unchanged (w : LanceWriterHandle)
    (hopen : w.closed = false) :
    (∀ arr sp, arr.isNone = true ∨ sp.isNone = true →
      lance_writer_write_batch (some w) arr sp = (some w, 3)) ∧
    (∀ a s e, import_ffi_batch (some a) s = Except.error e →
      lance_writer_write_batch (some w) (some a) (some s) = (some w, 4)) := by
  constructor
  · intro arr sp h
    have hg : (arr.isNone || sp.isNone) = true := by
      rcases h with h | h <;> simp [h]
    unfold lance_writer_write_batch
    rw [hg]
    rfl
  · intro a s e h
    unfold lance_writer_write_batch
    simp [hopen, h]

/-- Witness for C3: a null array descriptor and a failing import on the
fresh sample writer, both leaving the state untouched. -/
theorem write_batch_failure_leaves_state_unchanged_witness :
    lance_writer_write_batch (some sampleOpenWriter) none
      (some (Except.ok sampleSchema)) = (some sampleOpenWriter, 3) ∧
    lance_writer_write_batch (some sampleOpenWriter)
      (some (CArr.mk 0 0 0 none 0 none)) (some (Except.ok sampleSchema)) =
      (some sampleOpenWriter, 4) :=
  ⟨(write_batch_failure_leaves_state_unchanged sampleOpenWriter rfl).1 none
      (some (Except.ok sampleSchema)) (Or.inl rfl),
   (write_batch_failure_leaves_state_unchanged sampleOpenWriter rfl).2
      (CArr.mk 0 0 0 none 0 none) (Except.ok sampleSchema)
      "Missing child array for field 0: a" rfl⟩

/-- Claim C4: a successful write_batch call on an Open handle captures the
schema from this batch when none was captured yet, appends the decoded
batch at the end of the batch list, increments the batch count by one and
the row count by the batch row count. -/
theorem write_batch_success_updates (w : LanceWriterHandle) (a : CArr)
    (s : Except String Schema) (rb : RecordBatch)
    (hopen : w.closed = false)
    (himp : import_ffi_batch (some a) s = Except.ok rb) :
    lance_writer_write_batch (some w) (some a) (some s) =
      (some { w with
                schema := if w.schema.isNone then some rb.schema else w.schema,
                batches := w.batches ++ [rb],
                batch_count := w.batch_count + 1,
                row_count := w.row_count + rb.num_rows }, 0) := by
  unfold lance_writer_write_batch
  simp only [Option.isNone_some, Bool.or_self, Bool.false_eq_true, if_false,
    hopen, Option.getD_some, himp]
  cases hs : w.schema with
  | none => simp [hs, hopen]
  | some x => simp [hs, hopen]

/-- Witness for C4, following spec Scenario B: the first sample write is
described exactly by the theorem; after a second successful write of 2
rows the batch count is 2 and the row count 5, and close hands both
batches to the external writer in write order. -/
theorem write_batch_success_updates_witness :
    lance_writer_write_batch (some sampleOpenWriter) (some sampleRoot3)
      (some (Except.ok sampleSchema)) =
      (some { sampleOpenWriter with
                schema := if sampleOpenWriter.schema.isNone then some sampleRb3.schema
                          else sampleOpenWriter.schema,
                batches := sampleOpenWriter.batches ++ [sampleRb3],
                batch_count := sampleOpenWriter.batch_count + 1,
                row_count := sampleOpenWriter.row_count + sampleRb3.num_rows }, 0) ∧
    (scenarioAfterSecond.map LanceWriterHandle.batch_count = some 2 ∧
     scenarioAfterSecond.map LanceWriterHandle.row_count = some 5 ∧
     (lance_writer_close scenarioAfterSecond extOk).2.2.map ExternalWriteCall.batches =
       some [sampleRb3, sampleRb2]) :=
  ⟨write_batch_success_updates sampleOpenWriter sampleRoot3
      (Except.ok sampleSchema) sampleRb3 rfl rfl,
   by decide⟩

/-- Counterexample to claim C1: closing the sample Open writer holding one
batch while the external dataset write fails returns status 5, but the
handle is NOT in the Closed state afterwards: the early return on external
failure skips the line that sets the closed flag. -/
theorem close_external_failure_counterexample :
    (lance_writer_close (some sampleWriterWithBatch) extFail).2.1 = 5 ∧
    ((lance_writer_close (some sampleWriterWithBatch) extFail).1.map
      LanceWriterHandle.closed) = some false :=
  ⟨rfl, rfl⟩

/-- Claim C1 as amended: when close is called on an Open handle with at
least one accumulated batch and the external dataset write fails, close
reports the write-failure status (5) but the handle remains Open (the
closed flag stays false); the accumulated batches have nevertheless
already been drained from the handle. -/
theorem close_external_failure_reports_failure_stays_open
    (w : LanceWriterHandle) (dw : ExternalWriteCall → Except String Unit)
    (err : String) (hopen : w.closed = false) (hb : w.batches ≠ [])
    (hfail : ∀ c, dw c = Except.error err) :
    (lance_writer_close (some w) dw).2.1 = 5 ∧
    (lance_writer_close (some w) dw).1 = some { w with batches := [] } := by
  unfold lance_writer_close
  simp [hopen, hb, hfail]

/-- Witness for the amended C1: the sample writer with one batch and the
always-failing external writer. -/
theorem close_external_failure_reports_failure_stays_open_witness :
    (lance_writer_close (some sampleWriterWithBatch) extFail).2.1 = 5 ∧
    (lance_writer_close (some sampleWriterWithBatch) extFail).1 =
      some { sampleWriterWithBatch with batches := [] } :=
  close_external_failure_reports_failure_stays_open sampleWriterWithBatch
    extFail "write failed" rfl (by decide) (fun c => rfl)

/-- Counterexample to claim C2: write_batch on a Closed handle with a null
array descriptor returns status 3 (null descriptor), not the
already-closed status 2, because the null-pointer check precedes the
closed check. -/
theorem closed_write_batch_null_descriptor_counterexample :
    (lance_writer_write_batch (some sampleClosedWriter) none
      (some (Except.ok sampleSchema))).2 = 3 ∧
    ¬ (lance_writer_write_batch (some sampleClosedWriter) none
      (some (Except.ok sampleSchema))).2 = 2 := by
  decide

/-- Claim C2 as amended: on a Closed handle, write_batch with non-null
descriptor arguments fails with the already-closed status (2); with a null
descriptor argument it fails with status 3 instead; in every case on a
Closed handle write_batch leaves the state unchanged, and close always
fails with status 2 without invoking the external writer, including a
second close after a successful one. -/
theorem closed_handle_rejections (w : LanceWriterHandle)
    (hc : w.closed = true) :
    (∀ arr sp, arr ≠ none → sp ≠ none →
      lance_writer_write_batch (some w) arr sp = (some w, 2)) ∧
    (∀ arr sp, arr = none ∨ sp = none →
      lance_writer_write_batch (some w) arr sp = (some w, 3)) ∧
    (∀ dw, lance_writer_close (some w) dw = (some w, 2, none)) := by
  refine ⟨?_, ?_, ?_⟩
  · intro arr sp ha hs
    match arr, sp with
    | some a, some s =>
      unfold lance_writer_write_batch
      simp [hc]
  · intro arr sp h
    match arr, sp, h with
    | none, _, _ =>
      unfold lance_writer_write_batch
      rfl
    | some a, none, _ =>
      unfold lance_writer_write_batch
      rfl
    | some a, some s, h =>
      rcases h with h | h <;> exact absurd h (by simp)
  · intro dw
    unfold lance_writer_close
    simp [hc]

/-- Witness for the amended C2: the sample Closed writer rejects a
write_batch with non-null descriptors and a close with status 2, and
rejects a write_batch with a null array descriptor or a null schema
descriptor with status 3; a second close after a successful close also
returns status 2. -/
theorem closed_handle_rejections_witness :
    lance_writer_write_batch (some sampleClosedWriter) (some sampleRoot3)
      (some (Except.ok sampleSchema)) = (some sampleClosedWriter, 2) ∧
    lance_writer_write_batch (some sampleClosedWriter) none
      (some (Except.ok sampleSchema)) = (some sampleClosedWriter, 3) ∧
    lance_writer_write_batch (some sampleClosedWriter) (some sampleRoot3) none =
      (some sampleClosedWriter, 3) ∧
    lance_writer_close (some sampleClosedWriter) extOk =
      (some sampleClosedWriter, 2, none) ∧
    (lance_writer_close
      ((lance_writer_close (some sampleWriterWithBatch) extOk).1) extOk).2.1 = 2 :=
  ⟨(closed_handle_rejections sampleClosedWriter rfl).1 (some sampleRoot3)
      (some (Except.ok sampleSchema)) (Option.some_ne_none sampleRoot3)
      (Option.some_ne_none (Except.ok sampleSchema)),
   (closed_handle_rejections sampleClosedWriter rfl).2.1 none
      (some (Except.ok sampleSchema)) (Or.inl rfl),
   (closed_handle_rejections sampleClosedWriter rfl).2.1 (some sampleRoot3)
      none (Or.inr rfl),
   (closed_handle_rejections sampleClosedWriter rfl).2.2 extOk,
   by decide⟩

/-- Claim C6: the planner is a total function of the schema assigning
every field exactly one strategy; the fixed-width numeric, decimal and
date types get fixed-width with the fast path, the text types get
dictionary without it, every other type gets variable-width without it,
and the augmented schema carries encoding hints only for fast-path
columns. -/
theorem encoding_planner_classification (f : Field) (s : Schema)
    (hm : s.metadata = []) :
    (isFastFixedType f.data_type = true →
      (EncodingStrategy.for_column f).strategy = "fixed-width" ∧
      (EncodingStrategy.for_column f).is_fast_path = true) ∧
    (isTextType f.data_type = true →
      (EncodingStrategy.for_column f).strategy = "dictionary" ∧
      (EncodingStrategy.for_column f).is_fast_path = false) ∧
    (isFastFixedType f.data_type = false → isTextType f.data_type = false →
      (EncodingStrategy.for_column f).strategy = "variable-width" ∧
      (EncodingStrategy.for_column f).is_fast_path = false) ∧
    ((EncodingStrategy.for_column f).strategy = "fixed-width" ∨
     (EncodingStrategy.for_column f).strategy = "dictionary" ∨
     (EncodingStrategy.for_column f).strategy = "variable-width") ∧
    (∀ kv ∈ (create_schema_with_hints s (compute_encoding_strategies s)).metadata,
      ∃ fld ∈ s.fields, (EncodingStrategy.for_column fld).is_fast_path = true ∧
        kv = ("lance-encoding:" ++ fld.name,
              (EncodingStrategy.for_column fld).strategy)) := by
  refine ⟨?_, ?_, ?_, ?_, ?_⟩
  · intro h
    obtain ⟨nm, dt⟩ := f
    cases dt <;> simp_all [EncodingStrategy.for_column, isFastFixedType]
  · intro h
    obtain ⟨nm, dt⟩ := f
    cases dt <;> simp_all [EncodingStrategy.for_column, isTextType]
  · intro h1 h2
    obtain ⟨nm, dt⟩ := f
    cases dt <;> simp_all [EncodingStrategy.for_column, isFastFixedType, isTextType]
  · obtain ⟨nm, dt⟩ := f
    cases dt <;> simp [EncodingStrategy.for_column]
  · intro kv hkv
    unfold create_schema_with_hints compute_encoding_strategies at hkv
    simp only [hm] at hkv
    have hz : ∀ l : List Field, l.zip (l.map EncodingStrategy.for_column) =
        l.map (fun a => (a, EncodingStrategy.for_column a)) := by
      intro l
      induction l with
      | nil => rfl
      | cons x xs ih => simp [ih]
    rw [hz] at hkv
    rcases mem_hints_foldl _ _ _ hkv with h1 | h1
    · exact absurd h1 (List.not_mem_nil kv)
    · rcases h1 with ⟨p, hp, hfast, he⟩
      rcases List.mem_map.mp hp with ⟨fld, hfld, hpe⟩
      refine ⟨fld, hfld, ?_, ?_⟩
      · rw [← hpe] at hfast
        exact hfast
      · rw [← hpe] at he
        exact he

/-- Witness for C6: the sample Int64 field is planned fixed-width on the
fast path, and the hinted schema for the sample one-field schema carries
only that hint. -/
theorem encoding_planner_classification_witness :
    ((EncodingStrategy.for_column { name := "a", data_type := DataType.int64 }).strategy =
      "fixed-width" ∧
     (EncodingStrategy.for_column { name := "a", data_type := DataType.int64 }).is_fast_path =
      true) ∧
    (create_schema_with_hints sampleSchema
      (compute_encoding_strategies sampleSchema)).metadata =
      [("lance-encoding:a", "fixed-width")] :=
  ⟨(encoding_planner_classification { name := "a", data_type := DataType.int64 }
      sampleSchema rfl).1 rfl,
   by decide⟩

end LanceFFI
